import Mathlib

/-!
Verification of the payhere-node SDK core (src/main.ts, src/types.ts,
src/errors.ts) against its natural-language specification.

The TypeScript source is shallowly embedded below:
* `crypto.createHash("md5")` is embedded as an executable MD5 over byte
  lists (RFC 1321), with `digest("hex").toUpperCase()` as `hexUpper`;
  strings are fed to the hash as their UTF-8 bytes, as node does.
* `Number(s).toFixed(2)` is embedded as `jsToFixed2`, an exact-rational
  idealisation of the JS numeric semantics (binary-double rounding
  artefacts and the >= 1e21 exponential-notation branch are outside the
  model; every input exercised here is exact in both semantics).
* `async`/`fetch` code is embedded as explicit state passing: each client
  operation receives the client state, the current time `Date.now()` and
  an oracle assigning an outcome to every HTTP request, and returns its
  result together with the updated state and the list of HTTP requests it
  issued (the network trace).
-/

namespace PayHereNode

/-- Two to the 32nd power, the word modulus of MD5 arithmetic. -/
def M32 : Nat := 4294967296

/-- Left-rotate a 32-bit word (represented as a `Nat` < 2^32) by `s` bits. -/
def rotl32 (x s : Nat) : Nat :=
  ((x <<< s) % M32) ||| (x >>> (32 - s))

/-- The MD5 sine-derived constant table `T[i] = floor(2^32 * |sin(i+1)|)`. -/
def md5K : List Nat :=
  [3614090360, 3905402710, 606105819, 3250441966,
   4118548399, 1200080426, 2821735955, 4249261313,
   1770035416, 2336552879, 4294925233, 2304563134,
   1804603682, 4254626195, 2792965006, 1236535329,
   4129170786, 3225465664, 643717713, 3921069994,
   3593408605, 38016083, 3634488961, 3889429448,
   568446438, 3275163606, 4107603335, 1163531501,
   2850285829, 4243563512, 1735328473, 2368359562,
   4294588738, 2272392833, 1839030562, 4259657740,
   2763975236, 1272893353, 4139469664, 3200236656,
   681279174, 3936430074, 3572445317, 76029189,
   3654602809, 3873151461, 530742520, 3299628645,
   4096336452, 1126891415, 2878612391, 4237533241,
   1700485571, 2399980690, 4293915773, 2240044497,
   1873313359, 4264355552, 2734768916, 1309151649,
   4149444226, 3174756917, 718787259, 3951481745]

/-- The MD5 per-step left-rotation amounts. -/
def md5S : List Nat :=
  [7, 12, 17, 22, 7, 12, 17, 22, 7, 12, 17, 22, 7, 12, 17, 22,
   5, 9, 14, 20, 5, 9, 14, 20, 5, 9, 14, 20, 5, 9, 14, 20,
   4, 11, 16, 23, 4, 11, 16, 23, 4, 11, 16, 23, 4, 11, 16, 23,
   6, 10, 15, 21, 6, 10, 15, 21, 6, 10, 15, 21, 6, 10, 15, 21]

/-- The MD5 round functions F, G, H, I selected by the step index. -/
def md5F (i b c d : Nat) : Nat :=
  if i < 16 then (b &&& c) ||| ((b ^^^ 4294967295) &&& d)
  else if i < 32 then (d &&& b) ||| ((d ^^^ 4294967295) &&& c)
  else if i < 48 then b ^^^ c ^^^ d
  else c ^^^ (b ||| (d ^^^ 4294967295))

/-- The MD5 message-word schedule. -/
def md5G (i : Nat) : Nat :=
  if i < 16 then i
  else if i < 32 then (5 * i + 1) % 16
  else if i < 48 then (3 * i + 5) % 16
  else (7 * i) % 16

/-- One MD5 step on the running state `(a, b, c, d)`. -/
def md5Step (ws : List Nat) (st : Nat × Nat × Nat × Nat) (i : Nat) :
    Nat × Nat × Nat × Nat :=
  let a := st.1; let b := st.2.1; let c := st.2.2.1; let d := st.2.2.2
  let f := (md5F i b c d + a + md5K.getD i 0 + ws.getD (md5G i) 0) % M32
  (d, (b + rotl32 f (md5S.getD i 0)) % M32, b, c)

/-- Decode a 64-byte chunk into sixteen little-endian 32-bit words. -/
def md5Words : List Nat → List Nat
  | b0 :: b1 :: b2 :: b3 :: rest =>
      (b0 + 256 * b1 + 65536 * b2 + 16777216 * b3) :: md5Words rest
  | _ => []

/-- Process one 64-byte chunk of the padded message. -/
def md5Chunk (st : Nat × Nat × Nat × Nat) (chunk : List Nat) :
    Nat × Nat × Nat × Nat :=
  let ws := md5Words chunk
  let r := (List.range 64).foldl (md5Step ws) st
  ((st.1 + r.1) % M32, (st.2.1 + r.2.1) % M32,
   (st.2.2.1 + r.2.2.1) % M32, (st.2.2.2 + r.2.2.2) % M32)

/-- Fold `md5Chunk` over consecutive 64-byte chunks; `fuel` bounds the
recursion and any `fuel >= ceil(length/64)` yields the true result. -/
def md5Chunks : Nat → (Nat × Nat × Nat × Nat) → List Nat →
    Nat × Nat × Nat × Nat
  | 0, st, _ => st
  | _, st, [] => st
  | fuel + 1, st, bytes => md5Chunks fuel (md5Chunk st (bytes.take 64)) (bytes.drop 64)

/-- RFC 1321 padding: a 0x80 byte, zeros to 56 mod 64, then the bit length
as eight little-endian bytes. -/
def md5Pad (msg : List Nat) : List Nat :=
  let len := msg.length
  let zeros := (120 - (len + 1) % 64) % 64
  let bitLen := len * 8
  msg ++ 128 :: List.replicate zeros 0 ++
    [bitLen % 256, bitLen >>> 8 % 256, bitLen >>> 16 % 256, bitLen >>> 24 % 256,
     bitLen >>> 32 % 256, bitLen >>> 40 % 256, bitLen >>> 48 % 256, bitLen >>> 56 % 256]

/-- Serialise a 32-bit word as four little-endian bytes. -/
def wordLE (w : Nat) : List Nat :=
  [w % 256, w >>> 8 % 256, w >>> 16 % 256, w >>> 24 % 256]

/-- MD5 digest (16 bytes) of a byte list. -/
def md5Bytes (msg : List Nat) : List Nat :=
  let padded := md5Pad msg
  let r := md5Chunks padded.length (1732584193, 4023233417, 2562383102, 271733878) padded
  wordLE r.1 ++ wordLE r.2.1 ++ wordLE r.2.2.1 ++ wordLE r.2.2.2

/-- The sixteen uppercase hexadecimal digit characters. -/
def hexDigitU (n : Nat) : Char :=
  "0123456789ABCDEF".data.getD n '0'

/-- Two uppercase hex characters of one byte. -/
def byteHexU (b : Nat) : List Char :=
  [hexDigitU (b / 16 % 16), hexDigitU (b % 16)]

/-- Uppercase hex rendering of a byte list, `digest("hex").toUpperCase()`. -/
def hexUpper (bs : List Nat) : String :=
  ⟨bs.flatMap byteHexU⟩

/-- UTF-8 encoding of one Unicode code point. -/
def utf8Char (n : Nat) : List Nat :=
  if n < 128 then [n]
  else if n < 2048 then [192 + n / 64, 128 + n % 64]
  else if n < 65536 then [224 + n / 4096, 128 + n / 64 % 64, 128 + n % 64]
  else [240 + n / 262144, 128 + n / 4096 % 64, 128 + n / 64 % 64, 128 + n % 64]

/-- UTF-8 bytes of a string, as node's `hash.update(string)` consumes it. -/
def strBytes (s : String) : List Nat :=
  s.data.flatMap (fun c => utf8Char c.toNat)

/-- Embedding of `crypto.createHash("md5").update(s).digest("hex").toUpperCase()`. -/
def md5HexUpper (s : String) : String :=
  hexUpper (md5Bytes (strBytes s))

/-! ### JS numeric semantics: `Number(string)` and `toFixed(2)` -/

/-- An exact decimal fraction `num / 10 ^ exp`.  Every string accepted by the
JS `Number` grammar denotes such a value, so this represents the parse results
exactly (two `Dec`s may denote the same rational; all consumers below are
value-respecting). -/
structure Dec where
  num : Int
  exp : Nat
deriving DecidableEq

/-- The rational value a `Dec` denotes. -/
def Dec.toRat (d : Dec) : ℚ :=
  (d.num : ℚ) / 10 ^ d.exp

/-- A `Dec` for an integer. -/
def Dec.ofInt (n : Int) : Dec := ⟨n, 0⟩

/-- A JS number as far as `toFixed` can observe it, with exact decimal
fractions in place of binary doubles. -/
inductive JsNum
  | nan
  | inf (neg : Bool)
  | fin (q : Dec)
deriving DecidableEq

/-- JS whitespace characters stripped by `Number(string)`. -/
def jsWhitespace (c : Char) : Bool :=
  c = ' ' ∨ c = '\t' ∨ c = '\n' ∨ c = '\r' ∨
  c = Char.ofNat 11 ∨ c = Char.ofNat 12 ∨ c = Char.ofNat 160

/-- Numeric value of a list of decimal digit characters. -/
def digitsToNat (l : List Char) : Nat :=
  l.foldl (fun a c => 10 * a + (c.toNat - 48)) 0

/-- Numeric value of a digit list in an arbitrary base (for 0x/0o/0b). -/
def radixToNat (base : Nat) (l : List Char) : Nat :=
  l.foldl (fun a c =>
    base * a + (if c.toNat ≥ 97 then c.toNat - 87
                else if c.toNat ≥ 65 then c.toNat - 55
                else c.toNat - 48)) 0

/-- Is `c` a digit of the given radix? -/
def isRadixDigit (base : Nat) (c : Char) : Bool :=
  (c.isDigit ∧ c.toNat - 48 < base) ∨
  (base = 16 ∧ (('a' ≤ c ∧ c ≤ 'f') ∨ ('A' ≤ c ∧ c ≤ 'F')))

/-- Parse the optional exponent part and finish an unsigned decimal literal:
a positive exponent scales the numerator, a negative one deepens the
denominator's power of ten. -/
def parseExpPart (l : List Char) (q : Dec) : Option Dec :=
  match l with
  | [] => some q
  | e :: rest =>
    if e = 'e' ∨ e = 'E' then
      let signedRest : Bool × List Char :=
        match rest with
        | '+' :: ds => (false, ds)
        | '-' :: ds => (true, ds)
        | ds => (false, ds)
      let neg := signedRest.1
      let ds := signedRest.2
      if ds ≠ [] ∧ ds.all Char.isDigit then
        some (if neg then ⟨q.num, q.exp + digitsToNat ds⟩
              else ⟨q.num * 10 ^ digitsToNat ds, q.exp⟩)
      else none
    else none

/-- Parse an unsigned decimal literal `digits [. digits] [exp]`. -/
def parseDec (l : List Char) : Option Dec :=
  let ip := l.takeWhile Char.isDigit
  let r1 := l.dropWhile Char.isDigit
  match r1 with
  | '.' :: r2 =>
    let fp := r2.takeWhile Char.isDigit
    let r3 := r2.dropWhile Char.isDigit
    if ip = [] ∧ fp = [] then none
    else parseExpPart r3
      ⟨(digitsToNat ip * 10 ^ fp.length + digitsToNat fp : Nat), fp.length⟩
  | _ => if ip = [] then none else parseExpPart r1 ⟨(digitsToNat ip : Nat), 0⟩

/-- Parse an unsigned numeric literal body (decimal or `Infinity`). -/
def parseUnsigned (l : List Char) : JsNum :=
  if l = "Infinity".data then .inf false
  else match parseDec l with
    | some q => .fin q
    | none => .nan

/-- Negate a `JsNum`. -/
def JsNum.negate : JsNum → JsNum
  | .nan => .nan
  | .inf b => .inf (!b)
  | .fin q => .fin ⟨-q.num, q.exp⟩

/-- JS string-to-number conversion `Number(string)` (exact-decimal model). -/
def jsNumber (s : String) : JsNum :=
  let t := (s.data.dropWhile jsWhitespace).reverse.dropWhile jsWhitespace |>.reverse
  match t with
  | [] => .fin ⟨0, 0⟩
  | '+' :: rest => parseUnsigned rest
  | '-' :: rest => (parseUnsigned rest).negate
  | '0' :: x :: rest =>
    if x = 'x' ∨ x = 'X' then
      if rest ≠ [] ∧ rest.all (isRadixDigit 16) then .fin ⟨(radixToNat 16 rest : Nat), 0⟩ else .nan
    else if x = 'o' ∨ x = 'O' then
      if rest ≠ [] ∧ rest.all (isRadixDigit 8) then .fin ⟨(radixToNat 8 rest : Nat), 0⟩ else .nan
    else if x = 'b' ∨ x = 'B' then
      if rest ≠ [] ∧ rest.all (isRadixDigit 2) then .fin ⟨(radixToNat 2 rest : Nat), 0⟩ else .nan
    else parseUnsigned t
  | _ => parseUnsigned t

/-- Left-pad the fractional part to two digits. -/
def two0pad (n : Nat) : String :=
  if n < 10 then "0" ++ toString n else toString n

/-- Rendering `x.toFixed(2)` for a nonnegative exact decimal `m / 10 ^ k`: round half
up to an integer count of hundredths, `floor(m * 100 / 10 ^ k + 1 / 2) =
(m * 200 + 10 ^ k) / (2 * 10 ^ k)`, and render `int.frac`. -/
def decToFixed2Pos (m k : Nat) : String :=
  let n := (m * 200 + 10 ^ k) / (2 * 10 ^ k)
  toString (n / 100) ++ "." ++ two0pad (n % 100)

/-- Rendering `x.toFixed(2)` for an exact decimal (ECMA-262 `Number.prototype.toFixed`
with `f = 2`: negative values format their magnitude behind a sign). -/
def decToFixed2 (d : Dec) : String :=
  if d.num < 0 then "-" ++ decToFixed2Pos (-d.num).toNat d.exp
  else decToFixed2Pos d.num.toNat d.exp

/-- Apply `toFixed(2)` to a `JsNum`. -/
def JsNum.toFixed2 : JsNum → String
  | .nan => "NaN"
  | .inf false => "Infinity"
  | .inf true => "-Infinity"
  | .fin q => decToFixed2 q

/-- The amount-formatting step of the source, `Number(s).toFixed(2)`. -/
def jsToFixed2 (s : String) : String :=
  (jsNumber s).toFixed2

/-! ### The hashing and verification functions of src/main.ts -/

/-- The `Currency` union type of src/types.ts. -/
inductive Currency
  | LKR
  | USD
  | EUR
deriving DecidableEq

/-- The string a `Currency` denotes. -/
def Currency.str : Currency → String
  | .LKR => "LKR"
  | .USD => "USD"
  | .EUR => "EUR"

/-- The single error class of src/errors.ts, carrying a message. -/
structure PayHereError where
  message : String
deriving DecidableEq

/-- The function `generatePaymentHash` of src/main.ts: the checkout integrity hash.
Throwing is embedded as `Except.error`. -/
def generatePaymentHash (order_id amount merchant_id merchant_secret : String)
    (currency : Currency := .LKR) : Except PayHereError String :=
  if merchant_id = "" ∨ merchant_secret = "" then
    .error ⟨"Merchant credentials missing"⟩
  else
    let hashedSecret := md5HexUpper merchant_secret
    let formattedAmount := jsToFixed2 amount
    let hashString := merchant_id ++ order_id ++ formattedAmount ++ currency.str ++ hashedSecret
    .ok (md5HexUpper hashString)

/-- A webhook payload: a JS object whose relevant values are strings,
embedded as an association list (first binding wins, as JS property lookup
has unique keys). -/
def Payload : Type := List (String × String)

/-- Membership test `k in data`. -/
def hasField (data : Payload) (k : String) : Bool :=
  (List.lookup k data).isSome

/-- Field read `data.k` for a field known to be present (absent fields read `""`,
which the source only does after the presence check). -/
def getField (data : Payload) (k : String) : String :=
  (List.lookup k data).getD ""

/-- The five webhook fields `verifyPaymentSignature` requires. -/
def requiredKeys : List String :=
  ["order_id", "payhere_amount", "status_code", "md5sig", "payhere_currency"]

/-- The function `verifyPaymentSignature` of src/main.ts: webhook signature check. -/
def verifyPaymentSignature (data : Payload) (merchant_id merchant_secret : String) :
    Bool :=
  if requiredKeys.all (fun k => hasField data k) then
    let hashedSecret := md5HexUpper merchant_secret
    let formattedAmount := jsToFixed2 (getField data "payhere_amount")
    let hashString := merchant_id ++ getField data "order_id" ++ formattedAmount ++
      getField data "payhere_currency" ++ getField data "status_code" ++ hashedSecret
    let generated := md5HexUpper hashString
    generated == getField data "md5sig"
  else false

/-! ### The PayHere client class: token cache and remote operations

`fetch`/`await` are embedded by explicit state passing.  Each operation takes
the client state, the current time (`Date.now()`, in milliseconds) and an
oracle fixing the outcome of every HTTP request, and returns its result, the
updated client state, and the list of HTTP requests it issued. -/

/-- A JSON value, as produced by `res.json()` and `JSON.stringify`. -/
inductive JVal
  | jstr (s : String)
  | jnum (n : Int)
  | jbool (b : Bool)
  | jnull
  | jobj (fields : List (String × JVal))

/-- Membership test `k in v` for an object body (the non-throwing case of
the JS `in` operator). -/
def JVal.hasKey : JVal → String → Bool
  | .jobj fs, k => (List.lookup k fs).isSome
  | _, _ => false

/-- Is this JSON value an object? -/
def JVal.isObj : JVal → Bool
  | .jobj _ => true
  | _ => false

/-- JS stringification of a parsed JSON value, as it appears in the
TypeError message the `in` operator raises on a non-object. -/
def JVal.jsShow : JVal → String
  | .jstr s => s
  | .jnum n => toString n
  | .jbool true => "true"
  | .jbool false => "false"
  | .jnull => "null"
  | .jobj _ => "[object Object]"

/-- The JS `in` operator on a parsed JSON body: a property test on an
object, a thrown TypeError on any non-object (`"status" in null` throws;
the enclosing try/catch of the source then wraps that TypeError). -/
def JVal.inOp : JVal → String → Except String Bool
  | .jobj fs, k => .ok (List.lookup k fs).isSome
  | v, k =>
    .error ("Cannot use 'in' operator to search for '" ++ k ++ "' in " ++ v.jsShow)

/-- Read `v.k` as a string, `none` when absent or not a string. -/
def JVal.getStr : JVal → String → Option String
  | .jobj fs, k =>
    match List.lookup k fs with
    | some (.jstr s) => some s
    | _ => none
  | _, _ => none

/-- Read `v.k` as a number, `none` when absent or not a number. -/
def JVal.getNum : JVal → String → Option Int
  | .jobj fs, k =>
    match List.lookup k fs with
    | some (.jnum n) => some n
    | _ => none
  | _, _ => none

/-- One HTTP request the client can issue, with the data the source puts in
it (the base URL and fixed path segments are determined by the endpoint). -/
inductive Request
  | token (authHeader : String)
  | search (bearer : String) (order_id : String)
  | refund (bearer : String) (body : JVal)

/-- The transport's verdict on one request: a rejected promise (network
error or timeout), a response whose body fails to parse as JSON, or a parsed
response with its `res.ok` flag. -/
inductive Outcome
  | netError (msg : String)
  | response (ok : Bool) (body : Except String JVal)

/-- The mutable state of one `PayHere` instance (constructor defaults as in
the source). -/
structure PayHere where
  merchant_id : String := ""
  merchant_secret : String := ""
  app_id : String := ""
  app_secret : String := ""
  sandbox_enabled : Bool := true
  request_timeout : Int := 20000
  authorizationCode : String := ""
  accessToken : String := ""
  accessTokenExpiresAt : Int := 0

/-- Result of one client operation: its value or error, the client state
after the call, and the issued HTTP requests in order. -/
structure StepResult (α : Type) where
  res : Except PayHereError α
  st : PayHere
  trace : List Request

/-- The base64 alphabet. -/
def b64Chars : List Char :=
  "ABCDEFGHIJKLMNOPQRSTUVWXYZabcdefghijklmnopqrstuvwxyz0123456789+/".data

/-- Encode a final group of one, two or three bytes. -/
def b64Group : List Nat → List Char
  | [b0, b1, b2] =>
    let n := b0 * 65536 + b1 * 256 + b2
    [b64Chars.getD (n >>> 18 % 64) 'A', b64Chars.getD (n >>> 12 % 64) 'A',
     b64Chars.getD (n >>> 6 % 64) 'A', b64Chars.getD (n % 64) 'A']
  | [b0, b1] =>
    let n := b0 * 65536 + b1 * 256
    [b64Chars.getD (n >>> 18 % 64) 'A', b64Chars.getD (n >>> 12 % 64) 'A',
     b64Chars.getD (n >>> 6 % 64) 'A', '=']
  | [b0] =>
    let n := b0 * 65536
    [b64Chars.getD (n >>> 18 % 64) 'A', b64Chars.getD (n >>> 12 % 64) 'A', '=', '=']
  | _ => []

/-- Encode consecutive 3-byte groups; `fuel` bounds the recursion and any
`fuel >= ceil(length/3)` yields the true result. -/
def b64Groups : Nat → List Nat → List Char
  | 0, _ => []
  | _, [] => []
  | fuel + 1, bytes => b64Group (bytes.take 3) ++ b64Groups fuel (bytes.drop 3)

/-- Embedding of `Buffer.from(s).toString("base64")`. -/
def base64 (s : String) : String :=
  ⟨b64Groups (strBytes s).length (strBytes s)⟩

/-- The message of `needMerchantCredentials`. -/
def merchantCredsMsg : String := "PAYHERE_MERCHANT_ID and PAYHERE_SECRET must be set"

/-- The message of `needAppCredentials`. -/
def appCredsMsg : String := "PAYHERE_APP_ID and PAYHERE_APP_SECRET must be set"

/-- The `genBase64Encode` getter: checks app credentials, then computes and
caches the Basic-auth digest. -/
def genBase64Encode (ph : PayHere) : Except PayHereError (String × PayHere) :=
  if ph.app_id = "" ∨ ph.app_secret = "" then .error ⟨appCredsMsg⟩
  else if ph.authorizationCode ≠ "" then .ok (ph.authorizationCode, ph)
  else
    let code := base64 (ph.app_id ++ ":" ++ ph.app_secret)
    .ok (code, { ph with authorizationCode := code })

/-- The method `getAccessToken` of src/main.ts.  A `token.access_token` that is absent
from a success body (JS `undefined`, falsy) is represented by `""`, and an
absent `expires_in` (JS `NaN` expiry, never `>` anything) by expiry `0`;
both preserve the cache-validity predicate `_accessToken && now < expiry`. -/
def getAccessToken (ph : PayHere) (now : Int) (oracle : Request → Outcome) :
    StepResult String :=
  if ph.app_id = "" ∨ ph.app_secret = "" then ⟨.error ⟨appCredsMsg⟩, ph, []⟩
  else if ph.accessToken ≠ "" ∧ now < ph.accessTokenExpiresAt then
    ⟨.ok ph.accessToken, ph, []⟩
  else
    match genBase64Encode ph with
    | .error e => ⟨.error ⟨"Failed to fetch access token: " ++ e.message⟩, ph, []⟩
    | .ok (auth, ph1) =>
      let req := Request.token ("Basic " ++ auth)
      match oracle req with
      | .netError m =>
        ⟨.error ⟨"Failed to fetch access token: " ++ m⟩, ph1, [req]⟩
      | .response ok body =>
        match body with
        | .error m =>
          ⟨.error ⟨"Failed to fetch access token: " ++ m⟩, ph1, [req]⟩
        | .ok v =>
          if ok = false then
            ⟨.error ⟨"Failed to fetch access token: " ++
              ((v.getStr "error_description").getD "")⟩, ph1, [req]⟩
          else
            let tok := (v.getStr "access_token").getD ""
            let expIn := (v.getNum "expires_in").getD 0
            ⟨.ok tok,
             { ph1 with accessToken := tok,
                        accessTokenExpiresAt := now + expIn * 1000 }, [req]⟩

/-- The catch-block wrapper of `getPaymentDetails`. -/
def detailsWrap (m : String) : String :=
  "Failed to fetch payment details. Please check if the order ID is correct or you have enabled payment retrieval on your PayHere account.\nError: " ++ m

/-- The method `getPaymentDetails` of src/main.ts.  On a non-success
response the source evaluates `"status" in data` and `"error" in data`
inside the try block: on a non-object body the first `in` throws a
TypeError, which the catch wraps like any other failure. -/
def getPaymentDetails (ph : PayHere) (now : Int) (oracle : Request → Outcome)
    (order_id : String) : StepResult JVal :=
  if ph.merchant_id = "" ∨ ph.merchant_secret = "" then
    ⟨.error ⟨merchantCredsMsg⟩, ph, []⟩
  else
    let t := getAccessToken ph now oracle
    match t.res with
    | .error e => ⟨.error e, t.st, t.trace⟩
    | .ok token =>
      let req := Request.search token order_id
      match oracle req with
      | .netError m => ⟨.error ⟨detailsWrap m⟩, t.st, t.trace ++ [req]⟩
      | .response ok body =>
        match body with
        | .error m => ⟨.error ⟨detailsWrap m⟩, t.st, t.trace ++ [req]⟩
        | .ok v =>
          if ok = false then
            match v.inOp "status" with
            | .error m => ⟨.error ⟨detailsWrap m⟩, t.st, t.trace ++ [req]⟩
            | .ok true =>
              ⟨.error ⟨detailsWrap ((v.getStr "msg").getD "")⟩, t.st, t.trace ++ [req]⟩
            | .ok false =>
              match v.inOp "error" with
              | .error m => ⟨.error ⟨detailsWrap m⟩, t.st, t.trace ++ [req]⟩
              | .ok true =>
                ⟨.error ⟨detailsWrap ((v.getStr "error_description").getD "")⟩,
                 t.st, t.trace ++ [req]⟩
              | .ok false => ⟨.ok v, t.st, t.trace ++ [req]⟩
          else
            ⟨.ok v, t.st, t.trace ++ [req]⟩

/-- The `refund_type` union of the source. -/
inductive RefundType
  | full
  | part
deriving DecidableEq

/-- The catch-block wrapper of `refundPayment`. -/
def refundWrap (m : String) : String :=
  "Refund failed. Please check if refunds are enabled on your PayHere account.\nError: " ++ m

/-- The method `refundPayment` of src/main.ts.  The body gains an
`amount` field only on the partial branch, after the positivity check.  As
in `getPaymentDetails`, the non-success `in` tests throw on a non-object
body and the catch wraps that TypeError. -/
def refundPayment (ph : PayHere) (now : Int) (oracle : Request → Outcome)
    (payment_id : Int) (reason : String) (amount : Dec := ⟨0, 0⟩)
    (refund_type : RefundType := .full) : StepResult JVal :=
  if ph.merchant_id = "" ∨ ph.merchant_secret = "" then
    ⟨.error ⟨merchantCredsMsg⟩, ph, []⟩
  else
    let t := getAccessToken ph now oracle
    match t.res with
    | .error e => ⟨.error e, t.st, t.trace⟩
    | .ok token =>
      if refund_type = .part ∧ amount.num ≤ 0 then
        ⟨.error ⟨"Amount for partial refund must be greater than zero"⟩, t.st, t.trace⟩
      else
        let body := JVal.jobj
          ([("payment_id", .jnum payment_id), ("reason", .jstr reason)] ++
            (if refund_type = .part then [("amount", .jstr (decToFixed2 amount))]
             else []))
        let req := Request.refund token body
        match oracle req with
        | .netError m => ⟨.error ⟨refundWrap m⟩, t.st, t.trace ++ [req]⟩
        | .response ok rbody =>
          match rbody with
          | .error m => ⟨.error ⟨refundWrap m⟩, t.st, t.trace ++ [req]⟩
          | .ok v =>
            if ok = false then
              match v.inOp "status" with
              | .error m => ⟨.error ⟨refundWrap m⟩, t.st, t.trace ++ [req]⟩
              | .ok true =>
                ⟨.error ⟨refundWrap ((v.getStr "msg").getD "")⟩, t.st, t.trace ++ [req]⟩
              | .ok false =>
                match v.inOp "error" with
                | .error m => ⟨.error ⟨refundWrap m⟩, t.st, t.trace ++ [req]⟩
                | .ok true =>
                  ⟨.error ⟨refundWrap ((v.getStr "error_description").getD "")⟩,
                   t.st, t.trace ++ [req]⟩
                | .ok false => ⟨.ok v, t.st, t.trace ++ [req]⟩
            else
              ⟨.ok v, t.st, t.trace ++ [req]⟩

/-! ### Concrete fixtures used by counterexamples and witnesses -/

/-- A client with all four credentials set and an empty token cache. -/
def phFix : PayHere :=
  { merchant_id := "MID", merchant_secret := "MSEC",
    app_id := "AID", app_secret := "ASEC" }

/-- A successful token body. -/
def tokenBodyFix : JVal :=
  .jobj [("access_token", .jstr "TOK"), ("expires_in", .jnum 3600)]

/-- An oracle that grants tokens, answers searches with a non-success
response whose body has neither a `status` nor an `error` key, and accepts
refunds. -/
def oracleFix : Request → Outcome
  | .token _ => .response true (.ok tokenBodyFix)
  | .search _ _ => .response false (.ok (.jobj [("foo", .jstr "bar")]))
  | .refund _ _ =>
    .response true (.ok (.jobj [("status", .jnum 1), ("msg", .jstr "ok"),
                                ("data", .jnum 100)]))

/-- The property C1 asserts of the hash output: 32 characters, all uppercase
hexadecimal digits. -/
def isUpperHex32 (s : String) : Prop :=
  s.length = 32 ∧ ∀ c ∈ s.data, c ∈ "0123456789ABCDEF".data

/-- A structured gateway error body. -/
def errBodyFix : JVal :=
  .jobj [("status", .jnum (-1)), ("msg", .jstr "boom")]

/-- An oracle that grants tokens and answers both merchant operations with
a non-success response in the structured gateway error shape. -/
def oracleErr : Request → Outcome
  | .token _ => .response true (.ok tokenBodyFix)
  | .search _ _ =>
    .response false (.ok (.jobj [("status", .jnum (-1)), ("msg", .jstr "boom")]))
  | .refund _ _ =>
    .response false (.ok (.jobj [("status", .jnum (-1)), ("msg", .jstr "boom")]))

/-- An oracle that grants tokens and answers both merchant operations with
a non-success response whose body is the JSON literal `null` (a non-object,
so the source's `"status" in data` throws). -/
def oracleNullBody : Request → Outcome
  | .token _ => .response true (.ok tokenBodyFix)
  | .search _ _ => .response false (.ok .jnull)
  | .refund _ _ => .response false (.ok .jnull)

/-- An oracle whose token endpoint rejects at the network level. -/
def oracleNet : Request → Outcome
  | .token _ => .netError "timeout"
  | _ => .response true (.ok .jnull)

/-- An oracle whose token endpoint replies with a body that fails JSON
parsing. -/
def oracleBadJson : Request → Outcome
  | .token _ => .response true (.error "Unexpected token < in JSON")
  | _ => .response true (.ok .jnull)

/-- An oracle whose token endpoint replies non-success in the OAuth error
shape. -/
def oracleDenied : Request → Outcome
  | .token _ =>
    .response false (.ok (.jobj [("error", .jstr "invalid_client"),
      ("error_description", .jstr "bad app credentials")]))
  | _ => .response true (.ok .jnull)

/-- The client `phFix` after `genBase64Encode` has cached the authorization digest. -/
def phFixAuth : PayHere := { phFix with authorizationCode := "QUlEOkFTRUM=" }

/-- A complete webhook payload (arbitrary signature value). -/
def payloadFix : Payload :=
  [("order_id", "O1"), ("payhere_amount", "100"), ("status_code", "2"),
   ("md5sig", "X"), ("payhere_currency", "LKR")]

/-- A webhook payload signed with EMPTY merchant credentials: its `md5sig`
is exactly the digest the verifier recomputes for `merchant_id = ""` and
`merchant_secret = ""`. -/
def payloadEmptyCreds : Payload :=
  [("order_id", "O1"), ("payhere_amount", "100"), ("status_code", "2"),
   ("md5sig", md5HexUpper ("" ++ "O1" ++ jsToFixed2 "100" ++ "LKR" ++ "2" ++
     md5HexUpper "")),
   ("payhere_currency", "LKR")]

end PayHereNode

set_option maxRecDepth 100000

section Smoke
open PayHereNode
example : md5HexUpper "" = "D41D8CD98F00B204E9800998ECF8427E" := by decide
example : md5HexUpper "abc" = "900150983CD24FB0D6963F7D28E17F72" := by decide
example : jsToFixed2 "1000" = "1000.00" := by decide
example : jsToFixed2 "1000.00" = "1000.00" := by decide
example : jsToFixed2 "abc" = "NaN" := by decide
example : jsToFixed2 "" = "0.00" := by decide
example : jsToFixed2 "-1.005" = "-1.01" := by decide
example : jsToFixed2 " 12.5 " = "12.50" := by decide
example : jsToFixed2 "0x10" = "16.00" := by decide
example : jsToFixed2 "1e2" = "100.00" := by decide
example : jsToFixed2 "1.2.3" = "NaN" := by decide
example : jsToFixed2 "Infinity" = "Infinity" := by decide
example : jsToFixed2 ".5" = "0.50" := by decide
example : base64 "AID:ASEC" = "QUlEOkFTRUM=" := by decide
example : base64 "a" = "YQ==" := by decide
example : base64 "ab" = "YWI=" := by decide
end Smoke

namespace PayHereNode

/-! ### Shape of the hash output -/

/-- Each byte contributes exactly two hex characters. -/
theorem flatMap_byteHexU_length (bs : List Nat) :
    (bs.flatMap byteHexU).length = 2 * bs.length := by
  induction bs with
  | nil => rfl
  | cons b t ih => simp [byteHexU, ih]; omega

/-- Applying `hexUpper` doubles the byte count. -/
theorem hexUpper_length (bs : List Nat) : (hexUpper bs).length = 2 * bs.length := by
  show (bs.flatMap byteHexU).length = 2 * bs.length
  exact flatMap_byteHexU_length bs

/-- Evaluating `hexDigitU` below 16 gives an uppercase hex digit. -/
theorem hexDigitU_mem : ∀ n < 16, hexDigitU n ∈ "0123456789ABCDEF".data := by decide

/-- Both characters emitted for a byte are uppercase hex digits. -/
theorem byteHexU_mem (b : Nat) : ∀ c ∈ byteHexU b, c ∈ "0123456789ABCDEF".data := by
  intro c hc
  simp only [byteHexU, List.mem_cons, List.not_mem_nil, or_false] at hc
  rcases hc with h | h <;> subst h <;>
    exact hexDigitU_mem _ (Nat.mod_lt _ (by norm_num))

/-- Every character `hexUpper` emits is an uppercase hex digit. -/
theorem hexUpper_chars (bs : List Nat) :
    ∀ c ∈ (hexUpper bs).data, c ∈ "0123456789ABCDEF".data := by
  intro c hc
  obtain ⟨b, _, hb⟩ := List.mem_flatMap.mp hc
  exact byteHexU_mem b c hb

/-- The MD5 digest is sixteen bytes. -/
theorem md5Bytes_length (m : List Nat) : (md5Bytes m).length = 16 := by
  simp [md5Bytes, wordLE]

/-- Every `md5HexUpper` output is a 32-character uppercase hex string. -/
theorem md5HexUpper_isUpperHex32 (s : String) : isUpperHex32 (md5HexUpper s) := by
  constructor
  · show (hexUpper (md5Bytes (strBytes s))).length = 32
    rw [hexUpper_length, md5Bytes_length]
  · exact hexUpper_chars _

/-- Padding `two0pad` of a value below 100 has exactly two characters. -/
theorem two0pad_length : ∀ n < 100, (two0pad n).length = 2 := by decide

end PayHereNode

namespace PayHereNode

/-! ### Claim theorems: hashing and verification -/

/-- String append is associative. -/
theorem str_append_assoc (a b c : String) : a ++ b ++ c = a ++ (b ++ c) := by
  cases a with | mk da => cases b with | mk db => cases c with | mk dc =>
  exact congrArg String.mk (List.append_assoc da db dc)

/-- The renderer `decToFixed2Pos` yields `int.frac` with a two-character fraction. -/
theorem decToFixed2Pos_shape (m k : Nat) :
    ∃ ip fr, decToFixed2Pos m k = ip ++ "." ++ fr ∧ fr.length = 2 := by
  refine ⟨toString ((m * 200 + 10 ^ k) / (2 * 10 ^ k) / 100),
          two0pad ((m * 200 + 10 ^ k) / (2 * 10 ^ k) % 100), rfl, ?_⟩
  exact two0pad_length _ (Nat.mod_lt _ (by norm_num))

/-- The renderer `decToFixed2` yields a (possibly signed) integer part, a dot, and
exactly two fractional digits. -/
theorem decToFixed2_shape (d : Dec) :
    ∃ ip fr, decToFixed2 d = ip ++ "." ++ fr ∧ fr.length = 2 := by
  unfold decToFixed2
  by_cases hneg : d.num < 0
  · rw [if_pos hneg]
    obtain ⟨ip, fr, he, hl⟩ := decToFixed2Pos_shape (-d.num).toNat d.exp
    refine ⟨"-" ++ ip, fr, ?_, hl⟩
    rw [he, str_append_assoc, str_append_assoc, str_append_assoc]
  · rw [if_neg hneg]
    exact decToFixed2Pos_shape _ _

/-- C1: for every non-empty merchant_id and merchant_secret and every
order_id, amount string and currency, `generatePaymentHash` returns
`uppercaseHex(MD5(merchant_id || order_id || formattedAmount || currency ||
uppercaseHex(MD5(merchant_secret))))` where `formattedAmount` is
`Number(amount).toFixed(2)` (for a numeric amount: the value rendered with
exactly two fractional digits); the result is a 32-character uppercase
hexadecimal string, and repeated calls with identical inputs are
byte-identical. -/
theorem generatePaymentHash_spec
    (order_id amount merchant_id merchant_secret : String) (currency : Currency)
    (hm : merchant_id ≠ "") (hs : merchant_secret ≠ "") :
    generatePaymentHash order_id amount merchant_id merchant_secret currency =
      .ok (md5HexUpper (merchant_id ++ order_id ++ jsToFixed2 amount ++
        currency.str ++ md5HexUpper merchant_secret)) ∧
    isUpperHex32 (md5HexUpper (merchant_id ++ order_id ++ jsToFixed2 amount ++
        currency.str ++ md5HexUpper merchant_secret)) ∧
    (∀ d : Dec, jsNumber amount = .fin d →
      ∃ ip fr, jsToFixed2 amount = ip ++ "." ++ fr ∧ fr.length = 2) ∧
    generatePaymentHash order_id amount merchant_id merchant_secret currency =
      generatePaymentHash order_id amount merchant_id merchant_secret currency := by
  refine ⟨?_, md5HexUpper_isUpperHex32 _, ?_, rfl⟩
  · unfold generatePaymentHash
    rw [if_neg]
    rintro (h | h)
    · exact hm h
    · exact hs h
  · intro d hd
    unfold jsToFixed2
    rw [hd]
    exact decToFixed2_shape d

/-- Witness for the C1 theorem at concrete inputs. -/
theorem generatePaymentHash_spec_witness :
    ("MID1" : String) ≠ "" ∧ ("SECRET1" : String) ≠ "" ∧
    (generatePaymentHash "ORDER123" "1000" "MID1" "SECRET1" Currency.LKR =
      .ok (md5HexUpper ("MID1" ++ "ORDER123" ++ jsToFixed2 "1000" ++
        Currency.LKR.str ++ md5HexUpper "SECRET1")) ∧
     isUpperHex32 (md5HexUpper ("MID1" ++ "ORDER123" ++ jsToFixed2 "1000" ++
        Currency.LKR.str ++ md5HexUpper "SECRET1")) ∧
     (∀ d : Dec, jsNumber "1000" = .fin d →
       ∃ ip fr, jsToFixed2 "1000" = ip ++ "." ++ fr ∧ fr.length = 2) ∧
     generatePaymentHash "ORDER123" "1000" "MID1" "SECRET1" Currency.LKR =
       generatePaymentHash "ORDER123" "1000" "MID1" "SECRET1" Currency.LKR) :=
  ⟨by decide, by decide,
   generatePaymentHash_spec "ORDER123" "1000" "MID1" "SECRET1" Currency.LKR
     (by decide) (by decide)⟩

/-- C10: for every amount string that `Number` cannot parse, the formatting
step yields the literal string "NaN" and `generatePaymentHash` (with
non-empty credentials) does not fail: it returns the 32-character uppercase
hex MD5 of a concatenation containing "NaN" in the amount position. -/
theorem generatePaymentHash_nan
    (order_id amount merchant_id merchant_secret : String) (currency : Currency)
    (hm : merchant_id ≠ "") (hs : merchant_secret ≠ "")
    (hn : jsNumber amount = .nan) :
    jsToFixed2 amount = "NaN" ∧
    generatePaymentHash order_id amount merchant_id merchant_secret currency =
      .ok (md5HexUpper (merchant_id ++ order_id ++ "NaN" ++ currency.str ++
        md5HexUpper merchant_secret)) ∧
    isUpperHex32 (md5HexUpper (merchant_id ++ order_id ++ "NaN" ++ currency.str ++
        md5HexUpper merchant_secret)) := by
  have hfix : jsToFixed2 amount = "NaN" := by
    unfold jsToFixed2
    rw [hn]
    rfl
  refine ⟨hfix, ?_, md5HexUpper_isUpperHex32 _⟩
  unfold generatePaymentHash
  rw [if_neg (by rintro (h | h); exacts [hm h, hs h])]
  rw [hfix]

/-- Witness for the C10 theorem at the concrete input "abc". -/
theorem generatePaymentHash_nan_witness :
    jsNumber "abc" = .nan ∧
    (jsToFixed2 "abc" = "NaN" ∧
     generatePaymentHash "O1" "abc" "MID" "MSEC" Currency.LKR =
       .ok (md5HexUpper ("MID" ++ "O1" ++ "NaN" ++ Currency.LKR.str ++
         md5HexUpper "MSEC")) ∧
     isUpperHex32 (md5HexUpper ("MID" ++ "O1" ++ "NaN" ++ Currency.LKR.str ++
         md5HexUpper "MSEC"))) :=
  ⟨by decide,
   generatePaymentHash_nan "O1" "abc" "MID" "MSEC" Currency.LKR
     (by decide) (by decide) (by decide)⟩

/-- When all five required fields are present, `verifyPaymentSignature` is
the equality test between the recomputed digest and the payload's `md5sig`. -/
theorem verify_eq_beq (data : Payload) (mid sec : String)
    (hall : requiredKeys.all (fun k => hasField data k) = true) :
    verifyPaymentSignature data mid sec =
      (md5HexUpper (mid ++ getField data "order_id" ++
        jsToFixed2 (getField data "payhere_amount") ++
        getField data "payhere_currency" ++ getField data "status_code" ++
        md5HexUpper sec) == getField data "md5sig") := by
  unfold verifyPaymentSignature
  rw [if_pos hall]

/-- C7: for every payload containing the five required fields,
`verifyPaymentSignature` returns true exactly when `md5sig` equals
`uppercaseHex(MD5(merchant_id || order_id || formattedAmount ||
payhere_currency || status_code || uppercaseHex(MD5(merchant_secret))))`;
in particular it returns false whenever `md5sig` differs from that digest at
any single character position. -/
theorem verifyPaymentSignature_spec (data : Payload) (mid sec : String)
    (h : ∀ k ∈ requiredKeys, hasField data k = true) :
    (verifyPaymentSignature data mid sec = true ↔
      getField data "md5sig" =
        md5HexUpper (mid ++ getField data "order_id" ++
          jsToFixed2 (getField data "payhere_amount") ++
          getField data "payhere_currency" ++ getField data "status_code" ++
          md5HexUpper sec)) ∧
    (∀ i : Nat,
      (getField data "md5sig").data.get? i ≠
        (md5HexUpper (mid ++ getField data "order_id" ++
          jsToFixed2 (getField data "payhere_amount") ++
          getField data "payhere_currency" ++ getField data "status_code" ++
          md5HexUpper sec)).data.get? i →
      verifyPaymentSignature data mid sec = false) := by
  have hv := verify_eq_beq data mid sec (List.all_eq_true.mpr h)
  constructor
  · rw [hv, beq_iff_eq, eq_comm]
  · intro i hi
    rw [hv]
    refine beq_eq_false_iff_ne.mpr ?_
    intro he
    exact hi (by rw [← he])

/-- Witness for the C7 theorem at a concrete complete payload. -/
theorem verifyPaymentSignature_spec_witness :
    (∀ k ∈ requiredKeys, hasField payloadFix k = true) ∧
    ((verifyPaymentSignature payloadFix "MID" "MSEC" = true ↔
      getField payloadFix "md5sig" =
        md5HexUpper ("MID" ++ getField payloadFix "order_id" ++
          jsToFixed2 (getField payloadFix "payhere_amount") ++
          getField payloadFix "payhere_currency" ++
          getField payloadFix "status_code" ++ md5HexUpper "MSEC")) ∧
     (∀ i : Nat,
       (getField payloadFix "md5sig").data.get? i ≠
         (md5HexUpper ("MID" ++ getField payloadFix "order_id" ++
           jsToFixed2 (getField payloadFix "payhere_amount") ++
           getField payloadFix "payhere_currency" ++
           getField payloadFix "status_code" ++ md5HexUpper "MSEC")).data.get? i →
       verifyPaymentSignature payloadFix "MID" "MSEC" = false)) :=
  ⟨by decide, verifyPaymentSignature_spec payloadFix "MID" "MSEC" (by decide)⟩

/-- C8: for every payload from which any one of the five required fields is
absent, `verifyPaymentSignature` returns false (it does not raise),
regardless of the other fields and of the credentials. -/
theorem verifyPaymentSignature_missing_field (data : Payload) (mid sec k : String)
    (hk : k ∈ requiredKeys) (habs : hasField data k = false) :
    verifyPaymentSignature data mid sec = false := by
  have hnall : ¬(requiredKeys.all (fun k => hasField data k) = true) := by
    intro hall
    have h2 := List.all_eq_true.mp hall k hk
    rw [habs] at h2
    exact Bool.noConfusion h2
  unfold verifyPaymentSignature
  rw [if_neg hnall]

/-- Witness for the C8 theorem: a payload missing `md5sig`. -/
theorem verifyPaymentSignature_missing_field_witness :
    ("md5sig" : String) ∈ requiredKeys ∧
    hasField [(("order_id" : String), ("O1" : String))] "md5sig" = false ∧
    verifyPaymentSignature [("order_id", "O1")] "MID" "MSEC" = false :=
  ⟨by decide, by decide,
   verifyPaymentSignature_missing_field [("order_id", "O1")] "MID" "MSEC" "md5sig"
     (by decide) (by decide)⟩

end PayHereNode

namespace PayHereNode

/-- C2 counterexample: with EMPTY merchant credentials,
`verifyPaymentSignature` does not fail fast; on a payload signed with empty
credentials it silently returns true, refuting "neither operation silently
succeeds with empty merchant credentials". -/
theorem verify_emptyCreds_counterexample :
    verifyPaymentSignature payloadEmptyCreds "" "" = true := by
  rw [verify_eq_beq payloadEmptyCreds "" "" (by rfl)]
  exact beq_iff_eq.mpr rfl

/-- C2 (amended): `generatePaymentHash` fails fast with the
credentials-missing error when merchant_id or merchant_secret is empty, but
`verifyPaymentSignature` performs no credential check at all: for any
credentials, empty ones included, there is a payload on which it silently
returns true. -/
theorem credentialsCheck_amended (order_id amount mid sec : String)
    (currency : Currency) (h : mid = "" ∨ sec = "") :
    generatePaymentHash order_id amount mid sec currency =
      .error ⟨"Merchant credentials missing"⟩ ∧
    ∃ data : Payload, verifyPaymentSignature data mid sec = true := by
  constructor
  · unfold generatePaymentHash
    rw [if_pos h]
  · refine ⟨[("order_id", "O1"), ("payhere_amount", "100"), ("status_code", "2"),
      ("md5sig", md5HexUpper (mid ++ "O1" ++ jsToFixed2 "100" ++ "LKR" ++ "2" ++
        md5HexUpper sec)),
      ("payhere_currency", "LKR")], ?_⟩
    rw [verify_eq_beq _ mid sec (by rfl)]
    exact beq_iff_eq.mpr rfl

/-- Witness for the amended C2 theorem at empty merchant_id. -/
theorem credentialsCheck_amended_witness :
    (("" : String) = "" ∨ ("MSEC" : String) = "") ∧
    (generatePaymentHash "O1" "100" "" "MSEC" Currency.LKR =
      .error ⟨"Merchant credentials missing"⟩ ∧
     ∃ data : Payload, verifyPaymentSignature data "" "MSEC" = true) :=
  ⟨Or.inl rfl, credentialsCheck_amended "O1" "100" "" "MSEC" Currency.LKR (Or.inl rfl)⟩

/-- In one call, `getAccessToken` issues no request or exactly one token request. -/
theorem getAccessToken_trace_cases (ph : PayHere) (now : Int)
    (oracle : Request → Outcome) :
    (getAccessToken ph now oracle).trace = [] ∨
    ∃ s, (getAccessToken ph now oracle).trace = [Request.token s] := by
  unfold getAccessToken
  dsimp only
  repeat' split
  all_goals first
    | exact Or.inl rfl
    | exact Or.inr ⟨_, rfl⟩

/-- Every request `getAccessToken` issues is a token request. -/
theorem getAccessToken_trace_token (ph : PayHere) (now : Int)
    (oracle : Request → Outcome) :
    ∀ r ∈ (getAccessToken ph now oracle).trace, ∃ s, r = Request.token s := by
  intro r hr
  rcases getAccessToken_trace_cases ph now oracle with h | ⟨s, h⟩
  · rw [h] at hr
    exact absurd hr (List.not_mem_nil r)
  · rw [h] at hr
    rw [List.mem_singleton] at hr
    exact ⟨s, hr⟩

/-- C3 counterexample: with an empty token cache, `refundPayment` with a
non-positive partial amount still performs a token-acquisition round-trip
before failing with the invalid-amount error, refuting "no token-acquisition
round-trip is attempted, regardless of the token cache's state". -/
theorem refund_invalidAmount_counterexample :
    (refundPayment phFix 0 oracleFix 1 "dup" ⟨0, 0⟩ .part).res =
      .error ⟨"Amount for partial refund must be greater than zero"⟩ ∧
    (refundPayment phFix 0 oracleFix 1 "dup" ⟨0, 0⟩ .part).trace =
      [Request.token "Basic QUlEOkFTRUM="] :=
  ⟨rfl, rfl⟩

/-- C3 (amended): with valid merchant credentials and a token acquisition
that succeeds, `refundPayment` with refund_type partial and amount <= 0
fails with the invalid-refund-amount error and issues no refund request —
its network traffic is exactly the token-acquisition step's (so when the
cache is not valid, a token round-trip does occur before the amount check). -/
theorem refund_invalidAmount_amended (ph : PayHere) (now : Int)
    (oracle : Request → Outcome) (pid : Int) (reason : String) (amount : Dec)
    (tok : String)
    (hm : ph.merchant_id ≠ "") (hs : ph.merchant_secret ≠ "")
    (hle : amount.num ≤ 0)
    (htok : (getAccessToken ph now oracle).res = .ok tok) :
    (refundPayment ph now oracle pid reason amount .part).res =
      .error ⟨"Amount for partial refund must be greater than zero"⟩ ∧
    (refundPayment ph now oracle pid reason amount .part).trace =
      (getAccessToken ph now oracle).trace ∧
    ∀ r ∈ (refundPayment ph now oracle pid reason amount .part).trace,
      ∃ s, r = Request.token s := by
  have hcond : ¬(ph.merchant_id = "" ∨ ph.merchant_secret = "") := by
    rintro (h | h)
    exacts [hm h, hs h]
  have hred : refundPayment ph now oracle pid reason amount .part =
      ⟨.error ⟨"Amount for partial refund must be greater than zero"⟩,
       (getAccessToken ph now oracle).st, (getAccessToken ph now oracle).trace⟩ := by
    simp [refundPayment, if_neg hcond, htok, hle]
  refine ⟨by rw [hred], by rw [hred], ?_⟩
  rw [hred]
  exact getAccessToken_trace_token ph now oracle

/-- Witness for the amended C3 theorem at concrete inputs. -/
theorem refund_invalidAmount_amended_witness :
    phFix.merchant_id ≠ "" ∧ phFix.merchant_secret ≠ "" ∧
    (⟨0, 0⟩ : Dec).num ≤ 0 ∧
    (getAccessToken phFix 0 oracleFix).res = .ok "TOK" ∧
    ((refundPayment phFix 0 oracleFix 1 "dup" ⟨0, 0⟩ .part).res =
      .error ⟨"Amount for partial refund must be greater than zero"⟩ ∧
     (refundPayment phFix 0 oracleFix 1 "dup" ⟨0, 0⟩ .part).trace =
      (getAccessToken phFix 0 oracleFix).trace ∧
     ∀ r ∈ (refundPayment phFix 0 oracleFix 1 "dup" ⟨0, 0⟩ .part).trace,
       ∃ s, r = Request.token s) :=
  ⟨by decide, by decide, by decide, rfl,
   refund_invalidAmount_amended phFix 0 oracleFix 1 "dup" ⟨0, 0⟩ "TOK"
     (by decide) (by decide) (by decide) rfl⟩

end PayHereNode

namespace PayHereNode

/-- C4 counterexample: a non-success search response whose body has neither
a `status` nor an `error` key is RETURNED to the caller as if successful,
refuting "the operation still fails with a generic RequestFailed rather
than returning the body to the caller". -/
theorem details_fallthrough_counterexample :
    (getPaymentDetails phFix 0 oracleFix "O1").res =
      .ok (.jobj [("foo", .jstr "bar")]) := rfl

/-- Only an object can pass the key-membership test. -/
theorem isObj_of_hasKey (v : JVal) (k : String) (h : v.hasKey k = true) :
    v.isObj = true := by
  cases v <;> simp_all [JVal.hasKey, JVal.isObj]

/-- On a body holding the key, the `in` operator returns true. -/
theorem inOp_of_hasKey (v : JVal) (k : String) (h : v.hasKey k = true) :
    v.inOp k = .ok true := by
  cases v <;> simp_all [JVal.hasKey, JVal.inOp]

/-- On an object body missing the key, the `in` operator returns false. -/
theorem inOp_of_obj_not_hasKey (v : JVal) (k : String) (ho : v.isObj = true)
    (h : v.hasKey k = false) : v.inOp k = .ok false := by
  cases v <;> simp_all [JVal.isObj, JVal.hasKey, JVal.inOp]
  exact h

/-- On a non-object body, the `in` operator throws. -/
theorem inOp_of_not_obj (v : JVal) (k : String) (ho : v.isObj = false) :
    v.inOp k =
      .error ("Cannot use 'in' operator to search for '" ++ k ++ "' in " ++
        v.jsShow) := by
  cases v <;> simp_all [JVal.isObj, JVal.inOp]

/-- C4 (amended): on a non-success response, `getPaymentDetails` and
`refundPayment` fail with the wrapped request-failure error carrying the
extracted message when the body has a `status` key (structured gateway
error) or an `error` key (OAuth-style error); a non-success OBJECT body
with neither key is not turned into an error — its raw body is returned to
the caller as if successful — while a non-object body (such as the JSON
literal null) makes the key test throw, so the operation still fails with
the wrapped request-failure error. -/
theorem requestFailed_translation_amended
    (ph : PayHere) (now : Int) (oracle : Request → Outcome) (order_id : String)
    (pid : Int) (reason : String) (amount : Dec) (tok : String) (v w : JVal)
    (hm : ph.merchant_id ≠ "") (hs : ph.merchant_secret ≠ "")
    (htok : (getAccessToken ph now oracle).res = .ok tok)
    (hsrch : oracle (Request.search tok order_id) = .response false (.ok v))
    (hrf : oracle (Request.refund tok (JVal.jobj
      [("payment_id", .jnum pid), ("reason", .jstr reason)])) =
        .response false (.ok w)) :
    (v.hasKey "status" = true →
      (getPaymentDetails ph now oracle order_id).res =
        .error ⟨detailsWrap ((v.getStr "msg").getD "")⟩) ∧
    (v.hasKey "status" = false → v.hasKey "error" = true →
      (getPaymentDetails ph now oracle order_id).res =
        .error ⟨detailsWrap ((v.getStr "error_description").getD "")⟩) ∧
    (v.isObj = true → v.hasKey "status" = false → v.hasKey "error" = false →
      (getPaymentDetails ph now oracle order_id).res = .ok v) ∧
    (v.isObj = false →
      (getPaymentDetails ph now oracle order_id).res =
        .error ⟨detailsWrap ("Cannot use 'in' operator to search for 'status' in " ++
          v.jsShow)⟩) ∧
    (w.hasKey "status" = true →
      (refundPayment ph now oracle pid reason amount .full).res =
        .error ⟨refundWrap ((w.getStr "msg").getD "")⟩) ∧
    (w.hasKey "status" = false → w.hasKey "error" = true →
      (refundPayment ph now oracle pid reason amount .full).res =
        .error ⟨refundWrap ((w.getStr "error_description").getD "")⟩) ∧
    (w.isObj = true → w.hasKey "status" = false → w.hasKey "error" = false →
      (refundPayment ph now oracle pid reason amount .full).res = .ok w) ∧
    (w.isObj = false →
      (refundPayment ph now oracle pid reason amount .full).res =
        .error ⟨refundWrap ("Cannot use 'in' operator to search for 'status' in " ++
          w.jsShow)⟩) := by
  have hcond : ¬(ph.merchant_id = "" ∨ ph.merchant_secret = "") := by
    rintro (h | h)
    exacts [hm h, hs h]
  refine ⟨?_, ?_, ?_, ?_, ?_, ?_, ?_, ?_⟩
  · intro h1
    simp [getPaymentDetails, if_neg hcond, htok, hsrch, inOp_of_hasKey v "status" h1]
  · intro h1 h2
    simp [getPaymentDetails, if_neg hcond, htok, hsrch,
      inOp_of_obj_not_hasKey v "status" (isObj_of_hasKey v "error" h2) h1,
      inOp_of_hasKey v "error" h2]
  · intro ho h1 h2
    simp [getPaymentDetails, if_neg hcond, htok, hsrch,
      inOp_of_obj_not_hasKey v "status" ho h1,
      inOp_of_obj_not_hasKey v "error" ho h2]
  · intro ho
    simp [getPaymentDetails, if_neg hcond, htok, hsrch,
      inOp_of_not_obj v "status" ho]
  · intro h1
    simp [refundPayment, if_neg hcond, htok, hrf, inOp_of_hasKey w "status" h1]
  · intro h1 h2
    simp [refundPayment, if_neg hcond, htok, hrf,
      inOp_of_obj_not_hasKey w "status" (isObj_of_hasKey w "error" h2) h1,
      inOp_of_hasKey w "error" h2]
  · intro ho h1 h2
    simp [refundPayment, if_neg hcond, htok, hrf,
      inOp_of_obj_not_hasKey w "status" ho h1,
      inOp_of_obj_not_hasKey w "error" ho h2]
  · intro ho
    simp [refundPayment, if_neg hcond, htok, hrf, inOp_of_not_obj w "status" ho]

end PayHereNode

namespace PayHereNode

/-- Witness for the amended C4 theorem: a structured gateway error body and
a JSON-null body on both operations. -/
theorem requestFailed_translation_amended_witness :
    phFix.merchant_id ≠ "" ∧ phFix.merchant_secret ≠ "" ∧
    (getAccessToken phFix 0 oracleErr).res = .ok "TOK" ∧
    oracleErr (Request.search "TOK" "O1") = .response false (.ok errBodyFix) ∧
    oracleErr (Request.refund "TOK" (JVal.jobj
      [("payment_id", .jnum 1), ("reason", .jstr "dup")])) =
      .response false (.ok errBodyFix) ∧
    (getAccessToken phFix 0 oracleNullBody).res = .ok "TOK" ∧
    oracleNullBody (Request.search "TOK" "O1") = .response false (.ok .jnull) ∧
    oracleNullBody (Request.refund "TOK" (JVal.jobj
      [("payment_id", .jnum 1), ("reason", .jstr "dup")])) =
      .response false (.ok .jnull) ∧
    ((errBodyFix.hasKey "status" = true →
      (getPaymentDetails phFix 0 oracleErr "O1").res =
        .error ⟨detailsWrap ((errBodyFix.getStr "msg").getD "")⟩) ∧
     (errBodyFix.hasKey "status" = false → errBodyFix.hasKey "error" = true →
      (getPaymentDetails phFix 0 oracleErr "O1").res =
        .error ⟨detailsWrap ((errBodyFix.getStr "error_description").getD "")⟩) ∧
     (errBodyFix.isObj = true → errBodyFix.hasKey "status" = false →
      errBodyFix.hasKey "error" = false →
      (getPaymentDetails phFix 0 oracleErr "O1").res = .ok errBodyFix) ∧
     (errBodyFix.isObj = false →
      (getPaymentDetails phFix 0 oracleErr "O1").res =
        .error ⟨detailsWrap ("Cannot use 'in' operator to search for 'status' in " ++
          errBodyFix.jsShow)⟩) ∧
     (errBodyFix.hasKey "status" = true →
      (refundPayment phFix 0 oracleErr 1 "dup" ⟨0, 0⟩ .full).res =
        .error ⟨refundWrap ((errBodyFix.getStr "msg").getD "")⟩) ∧
     (errBodyFix.hasKey "status" = false → errBodyFix.hasKey "error" = true →
      (refundPayment phFix 0 oracleErr 1 "dup" ⟨0, 0⟩ .full).res =
        .error ⟨refundWrap ((errBodyFix.getStr "error_description").getD "")⟩) ∧
     (errBodyFix.isObj = true → errBodyFix.hasKey "status" = false →
      errBodyFix.hasKey "error" = false →
      (refundPayment phFix 0 oracleErr 1 "dup" ⟨0, 0⟩ .full).res = .ok errBodyFix) ∧
     (errBodyFix.isObj = false →
      (refundPayment phFix 0 oracleErr 1 "dup" ⟨0, 0⟩ .full).res =
        .error ⟨refundWrap ("Cannot use 'in' operator to search for 'status' in " ++
          errBodyFix.jsShow)⟩)) ∧
    ((JVal.jnull.hasKey "status" = true →
      (getPaymentDetails phFix 0 oracleNullBody "O1").res =
        .error ⟨detailsWrap ((JVal.jnull.getStr "msg").getD "")⟩) ∧
     (JVal.jnull.hasKey "status" = false → JVal.jnull.hasKey "error" = true →
      (getPaymentDetails phFix 0 oracleNullBody "O1").res =
        .error ⟨detailsWrap ((JVal.jnull.getStr "error_description").getD "")⟩) ∧
     (JVal.jnull.isObj = true → JVal.jnull.hasKey "status" = false →
      JVal.jnull.hasKey "error" = false →
      (getPaymentDetails phFix 0 oracleNullBody "O1").res = .ok JVal.jnull) ∧
     (JVal.jnull.isObj = false →
      (getPaymentDetails phFix 0 oracleNullBody "O1").res =
        .error ⟨detailsWrap ("Cannot use 'in' operator to search for 'status' in " ++
          JVal.jnull.jsShow)⟩) ∧
     (JVal.jnull.hasKey "status" = true →
      (refundPayment phFix 0 oracleNullBody 1 "dup" ⟨0, 0⟩ .full).res =
        .error ⟨refundWrap ((JVal.jnull.getStr "msg").getD "")⟩) ∧
     (JVal.jnull.hasKey "status" = false → JVal.jnull.hasKey "error" = true →
      (refundPayment phFix 0 oracleNullBody 1 "dup" ⟨0, 0⟩ .full).res =
        .error ⟨refundWrap ((JVal.jnull.getStr "error_description").getD "")⟩) ∧
     (JVal.jnull.isObj = true → JVal.jnull.hasKey "status" = false →
      JVal.jnull.hasKey "error" = false →
      (refundPayment phFix 0 oracleNullBody 1 "dup" ⟨0, 0⟩ .full).res = .ok JVal.jnull) ∧
     (JVal.jnull.isObj = false →
      (refundPayment phFix 0 oracleNullBody 1 "dup" ⟨0, 0⟩ .full).res =
        .error ⟨refundWrap ("Cannot use 'in' operator to search for 'status' in " ++
          JVal.jnull.jsShow)⟩)) :=
  ⟨by decide, by decide, rfl, rfl, rfl, rfl, rfl, rfl,
   requestFailed_translation_amended phFix 0 oracleErr "O1" 1 "dup" ⟨0, 0⟩ "TOK"
     errBodyFix errBodyFix (by decide) (by decide) rfl rfl rfl,
   requestFailed_translation_amended phFix 0 oracleNullBody "O1" 1 "dup" ⟨0, 0⟩ "TOK"
     .jnull .jnull (by decide) (by decide) rfl rfl rfl⟩

end PayHereNode

namespace PayHereNode

/-- The getter `genBase64Encode` only touches the cached authorization digest: all
other fields, the token cache included, are preserved. -/
theorem genBase64Encode_fields (ph ph1 : PayHere) (auth : String)
    (h : genBase64Encode ph = .ok (auth, ph1)) :
    ph1.app_id = ph.app_id ∧ ph1.app_secret = ph.app_secret ∧
    ph1.accessToken = ph.accessToken ∧
    ph1.accessTokenExpiresAt = ph.accessTokenExpiresAt := by
  unfold genBase64Encode at h
  split at h
  · exact absurd h (by simp)
  · split at h <;>
      (simp only [Except.ok.injEq, Prod.mk.injEq] at h
       obtain ⟨h1, h2⟩ := h
       subst h2
       exact ⟨rfl, rfl, rfl, rfl⟩)

/-- C5: the token cache is a two-state machine.  When the cached token is
valid (non-empty and now < expires_at) `getAccessToken` returns it with no
acquisition request; when absent/expired, it performs one acquisition,
records the returned value with `expires_at = now + expires_in * 1000`, and
returns it — after which a second call before expiry performs no further
round-trip, so the two calls issue exactly one acquisition request. -/
theorem getAccessToken_cache_spec (ph ph1 : PayHere) (now now' : Int)
    (oracle : Request → Outcome) (auth tok : String) (v : JVal) (e : Int)
    (ha1 : ph.app_id ≠ "") (ha2 : ph.app_secret ≠ "") :
    ((ph.accessToken ≠ "" ∧ now < ph.accessTokenExpiresAt) →
      getAccessToken ph now oracle = ⟨.ok ph.accessToken, ph, []⟩) ∧
    (¬(ph.accessToken ≠ "" ∧ now < ph.accessTokenExpiresAt) →
      genBase64Encode ph = .ok (auth, ph1) →
      oracle (.token ("Basic " ++ auth)) = .response true (.ok v) →
      v.getStr "access_token" = some tok →
      v.getNum "expires_in" = some e →
      (getAccessToken ph now oracle =
        ⟨.ok tok, { ph1 with accessToken := tok, accessTokenExpiresAt := now + e * 1000 },
         [.token ("Basic " ++ auth)]⟩ ∧
       (tok ≠ "" → now' < now + e * 1000 →
         getAccessToken (getAccessToken ph now oracle).st now' oracle =
           ⟨.ok tok, (getAccessToken ph now oracle).st, []⟩ ∧
         (getAccessToken ph now oracle).trace ++
           (getAccessToken (getAccessToken ph now oracle).st now' oracle).trace =
           [.token ("Basic " ++ auth)]))) := by
  have hc : ¬(ph.app_id = "" ∨ ph.app_secret = "") := by
    rintro (h | h)
    exacts [ha1 h, ha2 h]
  constructor
  · intro hv
    unfold getAccessToken
    rw [if_neg hc, if_pos hv]
  · intro hinv hgen ho hv1 hv2
    obtain ⟨f1, f2, _, _⟩ := genBase64Encode_fields ph ph1 auth hgen
    have hmain : getAccessToken ph now oracle =
        ⟨.ok tok, { ph1 with accessToken := tok, accessTokenExpiresAt := now + e * 1000 },
         [.token ("Basic " ++ auth)]⟩ := by
      unfold getAccessToken
      rw [if_neg hc, if_neg hinv, hgen]
      simp [ho, hv1, hv2]
    refine ⟨hmain, ?_⟩
    intro ht hn
    have hsecond : getAccessToken (getAccessToken ph now oracle).st now' oracle =
        ⟨.ok tok, (getAccessToken ph now oracle).st, []⟩ := by
      rw [hmain]
      unfold getAccessToken
      dsimp only
      rw [if_neg (show ¬(ph1.app_id = "" ∨ ph1.app_secret = "") by
            rw [f1, f2]
            exact hc),
          if_pos (show (tok ≠ "" ∧ now' < now + e * 1000) from ⟨ht, hn⟩)]
    refine ⟨hsecond, ?_⟩
    rw [hsecond, hmain]
    rfl

end PayHereNode

namespace PayHereNode

/-- Witness for the C5 theorem: a fresh client acquires once; a second call
1 second later reuses the cache. -/
theorem getAccessToken_cache_spec_witness :
    phFix.app_id ≠ "" ∧ phFix.app_secret ≠ "" ∧
    (((phFix.accessToken ≠ "" ∧ (0 : Int) < phFix.accessTokenExpiresAt) →
      getAccessToken phFix 0 oracleFix = ⟨.ok phFix.accessToken, phFix, []⟩) ∧
     (¬(phFix.accessToken ≠ "" ∧ (0 : Int) < phFix.accessTokenExpiresAt) →
      genBase64Encode phFix =
        .ok ("QUlEOkFTRUM=", { phFix with authorizationCode := "QUlEOkFTRUM=" }) →
      oracleFix (.token ("Basic " ++ "QUlEOkFTRUM=")) =
        .response true (.ok tokenBodyFix) →
      tokenBodyFix.getStr "access_token" = some "TOK" →
      tokenBodyFix.getNum "expires_in" = some 3600 →
      (getAccessToken phFix 0 oracleFix =
        ⟨.ok "TOK", { { phFix with authorizationCode := "QUlEOkFTRUM=" } with accessToken := "TOK", accessTokenExpiresAt := 0 + 3600 * 1000 },
         [.token ("Basic " ++ "QUlEOkFTRUM=")]⟩ ∧
       (("TOK" : String) ≠ "" → (1000 : Int) < 0 + 3600 * 1000 →
         getAccessToken (getAccessToken phFix 0 oracleFix).st 1000 oracleFix =
           ⟨.ok "TOK", (getAccessToken phFix 0 oracleFix).st, []⟩ ∧
         (getAccessToken phFix 0 oracleFix).trace ++
           (getAccessToken (getAccessToken phFix 0 oracleFix).st 1000 oracleFix).trace =
           [.token ("Basic " ++ "QUlEOkFTRUM=")])))) :=
  ⟨by decide, by decide,
   getAccessToken_cache_spec phFix { phFix with authorizationCode := "QUlEOkFTRUM=" }
     0 1000 oracleFix "QUlEOkFTRUM=" "TOK" tokenBodyFix 3600 (by decide) (by decide)⟩

end PayHereNode

namespace PayHereNode

/-- C6: every failing acquisition attempt — network error, malformed
(unparsable) response body, or non-success HTTP outcome — fails with the
token-acquisition error carrying the reason, and leaves the token cache
unchanged: neither the cached token value nor its expiry is updated. -/
theorem getAccessToken_failure_spec (ph ph1 : PayHere) (now : Int)
    (oracle : Request → Outcome) (auth : String)
    (ha1 : ph.app_id ≠ "") (ha2 : ph.app_secret ≠ "")
    (hinv : ¬(ph.accessToken ≠ "" ∧ now < ph.accessTokenExpiresAt))
    (hgen : genBase64Encode ph = .ok (auth, ph1)) :
    (∀ m, oracle (.token ("Basic " ++ auth)) = .netError m →
      getAccessToken ph now oracle =
        ⟨.error ⟨"Failed to fetch access token: " ++ m⟩, ph1,
         [.token ("Basic " ++ auth)]⟩ ∧
      ph1.accessToken = ph.accessToken ∧
      ph1.accessTokenExpiresAt = ph.accessTokenExpiresAt) ∧
    (∀ m ok, oracle (.token ("Basic " ++ auth)) = .response ok (.error m) →
      getAccessToken ph now oracle =
        ⟨.error ⟨"Failed to fetch access token: " ++ m⟩, ph1,
         [.token ("Basic " ++ auth)]⟩ ∧
      ph1.accessToken = ph.accessToken ∧
      ph1.accessTokenExpiresAt = ph.accessTokenExpiresAt) ∧
    (∀ v, oracle (.token ("Basic " ++ auth)) = .response false (.ok v) →
      getAccessToken ph now oracle =
        ⟨.error ⟨"Failed to fetch access token: " ++
          ((v.getStr "error_description").getD "")⟩, ph1,
         [.token ("Basic " ++ auth)]⟩ ∧
      ph1.accessToken = ph.accessToken ∧
      ph1.accessTokenExpiresAt = ph.accessTokenExpiresAt) := by
  have hc : ¬(ph.app_id = "" ∨ ph.app_secret = "") := by
    rintro (h | h)
    exacts [ha1 h, ha2 h]
  obtain ⟨_, _, g3, g4⟩ := genBase64Encode_fields ph ph1 auth hgen
  refine ⟨?_, ?_, ?_⟩
  · intro m ho
    exact ⟨by simp [getAccessToken, if_neg hc, if_neg hinv, hgen, ho], g3, g4⟩
  · intro m ok ho
    exact ⟨by simp [getAccessToken, if_neg hc, if_neg hinv, hgen, ho], g3, g4⟩
  · intro v ho
    exact ⟨by simp [getAccessToken, if_neg hc, if_neg hinv, hgen, ho], g3, g4⟩

/-- Witness for the C6 theorem: the three failure modes at concrete
oracles, each leaving the fresh client's empty cache untouched. -/
theorem getAccessToken_failure_spec_witness :
    phFix.app_id ≠ "" ∧ phFix.app_secret ≠ "" ∧
    ¬(phFix.accessToken ≠ "" ∧ (0 : Int) < phFix.accessTokenExpiresAt) ∧
    genBase64Encode phFix = .ok ("QUlEOkFTRUM=", phFixAuth) ∧
    oracleNet (.token ("Basic " ++ "QUlEOkFTRUM=")) = .netError "timeout" ∧
    oracleBadJson (.token ("Basic " ++ "QUlEOkFTRUM=")) =
      .response true (.error "Unexpected token < in JSON") ∧
    oracleDenied (.token ("Basic " ++ "QUlEOkFTRUM=")) =
      .response false (.ok (.jobj [("error", .jstr "invalid_client"),
        ("error_description", .jstr "bad app credentials")])) ∧
    (getAccessToken phFix 0 oracleNet =
      ⟨.error ⟨"Failed to fetch access token: " ++ "timeout"⟩, phFixAuth,
       [.token ("Basic " ++ "QUlEOkFTRUM=")]⟩ ∧
     phFixAuth.accessToken = phFix.accessToken ∧
     phFixAuth.accessTokenExpiresAt = phFix.accessTokenExpiresAt) ∧
    (getAccessToken phFix 0 oracleBadJson =
      ⟨.error ⟨"Failed to fetch access token: " ++ "Unexpected token < in JSON"⟩,
       phFixAuth, [.token ("Basic " ++ "QUlEOkFTRUM=")]⟩ ∧
     phFixAuth.accessToken = phFix.accessToken ∧
     phFixAuth.accessTokenExpiresAt = phFix.accessTokenExpiresAt) ∧
    (getAccessToken phFix 0 oracleDenied =
      ⟨.error ⟨"Failed to fetch access token: " ++
        (((JVal.jobj [("error", .jstr "invalid_client"),
          ("error_description", .jstr "bad app credentials")]).getStr
            "error_description").getD "")⟩,
       phFixAuth, [.token ("Basic " ++ "QUlEOkFTRUM=")]⟩ ∧
     phFixAuth.accessToken = phFix.accessToken ∧
     phFixAuth.accessTokenExpiresAt = phFix.accessTokenExpiresAt) :=
  ⟨by decide, by decide, by decide, rfl, rfl, rfl, rfl,
   (getAccessToken_failure_spec phFix phFixAuth 0 oracleNet "QUlEOkFTRUM="
     (by decide) (by decide) (by decide) rfl).1 "timeout" rfl,
   (getAccessToken_failure_spec phFix phFixAuth 0 oracleBadJson "QUlEOkFTRUM="
     (by decide) (by decide) (by decide) rfl).2.1 "Unexpected token < in JSON" true rfl,
   (getAccessToken_failure_spec phFix phFixAuth 0 oracleDenied "QUlEOkFTRUM="
     (by decide) (by decide) (by decide) rfl).2.2
     (.jobj [("error", .jstr "invalid_client"),
       ("error_description", .jstr "bad app credentials")]) rfl⟩

end PayHereNode

namespace PayHereNode

/-- C9: on every validated refund path the outgoing body carries
`payment_id` and `reason`; a partial refund with positive amount adds the
amount formatted to two fixed fractional digits (500 formats as "500.00"),
and a full refund omits the amount field regardless of the amount
argument. -/
theorem refundPayment_body_spec (ph : PayHere) (now : Int)
    (oracle : Request → Outcome) (pid : Int) (reason : String) (amount : Dec)
    (tok : String)
    (hm : ph.merchant_id ≠ "") (hs : ph.merchant_secret ≠ "")
    (htok : (getAccessToken ph now oracle).res = .ok tok) :
    ((refundPayment ph now oracle pid reason amount .full).trace =
       (getAccessToken ph now oracle).trace ++
       [Request.refund tok (JVal.jobj
         [("payment_id", .jnum pid), ("reason", .jstr reason)])] ∧
     (JVal.jobj [("payment_id", .jnum pid),
       ("reason", .jstr reason)]).hasKey "payment_id" = true ∧
     (JVal.jobj [("payment_id", .jnum pid),
       ("reason", .jstr reason)]).hasKey "reason" = true ∧
     (JVal.jobj [("payment_id", .jnum pid),
       ("reason", .jstr reason)]).hasKey "amount" = false) ∧
    (0 < amount.num →
      (refundPayment ph now oracle pid reason amount .part).trace =
        (getAccessToken ph now oracle).trace ++
        [Request.refund tok (JVal.jobj
          [("payment_id", .jnum pid), ("reason", .jstr reason),
           ("amount", .jstr (decToFixed2 amount))])] ∧
      (JVal.jobj [("payment_id", .jnum pid), ("reason", .jstr reason),
        ("amount", .jstr (decToFixed2 amount))]).hasKey "payment_id" = true ∧
      (JVal.jobj [("payment_id", .jnum pid), ("reason", .jstr reason),
        ("amount", .jstr (decToFixed2 amount))]).hasKey "reason" = true ∧
      (JVal.jobj [("payment_id", .jnum pid), ("reason", .jstr reason),
        ("amount", .jstr (decToFixed2 amount))]).hasKey "amount" = true) ∧
    decToFixed2 ⟨500, 0⟩ = "500.00" := by
  have hcond : ¬(ph.merchant_id = "" ∨ ph.merchant_secret = "") := by
    rintro (h | h)
    exacts [hm h, hs h]
  refine ⟨⟨?_, rfl, rfl, rfl⟩, ?_, by decide⟩
  · simp only [refundPayment]
    rw [if_neg hcond, htok]
    dsimp only
    rw [if_neg (show ¬(RefundType.full = RefundType.part ∧ amount.num ≤ 0) by
          rintro ⟨h, _⟩
          exact RefundType.noConfusion h),
        if_neg (show ¬(RefundType.full = RefundType.part) from
          fun h => RefundType.noConfusion h)]
    simp only [List.append_nil]
    rcases ho : oracle (Request.refund tok (JVal.jobj
        [("payment_id", JVal.jnum pid), ("reason", JVal.jstr reason)])) with
      m | ⟨ok, body⟩
    · rfl
    · rcases body with m | v
      · rfl
      · dsimp only
        by_cases hok : ok = false
        · rw [if_pos hok]
          rcases h1 : v.inOp "status" with m1 | b1
          · rfl
          · cases b1
            · rcases h2 : v.inOp "error" with m2 | b2
              · rfl
              · cases b2
                · rfl
                · rfl
            · rfl
        · rw [if_neg hok]
  · intro hpos
    refine ⟨?_, rfl, rfl, rfl⟩
    simp only [refundPayment]
    rw [if_neg hcond, htok]
    dsimp only
    simp only [true_and, if_true]
    rw [if_neg (show ¬(amount.num ≤ 0) by omega)]
    simp only [List.cons_append, List.nil_append]
    rcases ho : oracle (Request.refund tok (JVal.jobj
        [("payment_id", JVal.jnum pid), ("reason", JVal.jstr reason),
         ("amount", JVal.jstr (decToFixed2 amount))])) with
      m | ⟨ok, body⟩
    · rfl
    · rcases body with m | v
      · rfl
      · dsimp only
        by_cases hok : ok = false
        · rw [if_pos hok]
          rcases h1 : v.inOp "status" with m1 | b1
          · rfl
          · cases b1
            · rcases h2 : v.inOp "error" with m2 | b2
              · rfl
              · cases b2
                · rfl
                · rfl
            · rfl
        · rw [if_neg hok]

end PayHereNode

namespace PayHereNode

/-- Witness for the C9 theorem: refunding payment 1 for 500, both as a full
refund (no amount field) and as a partial refund ("amount": "500.00"). -/
theorem refundPayment_body_spec_witness :
    phFix.merchant_id ≠ "" ∧ phFix.merchant_secret ≠ "" ∧
    (getAccessToken phFix 0 oracleFix).res = .ok "TOK" ∧
    (((refundPayment phFix 0 oracleFix 1 "dup" ⟨500, 0⟩ .full).trace =
       (getAccessToken phFix 0 oracleFix).trace ++
       [Request.refund "TOK" (JVal.jobj
         [("payment_id", .jnum 1), ("reason", .jstr "dup")])] ∧
      (JVal.jobj [("payment_id", .jnum 1),
        ("reason", .jstr "dup")]).hasKey "payment_id" = true ∧
      (JVal.jobj [("payment_id", .jnum 1),
        ("reason", .jstr "dup")]).hasKey "reason" = true ∧
      (JVal.jobj [("payment_id", .jnum 1),
        ("reason", .jstr "dup")]).hasKey "amount" = false) ∧
     (0 < (⟨500, 0⟩ : Dec).num →
       (refundPayment phFix 0 oracleFix 1 "dup" ⟨500, 0⟩ .part).trace =
         (getAccessToken phFix 0 oracleFix).trace ++
         [Request.refund "TOK" (JVal.jobj
           [("payment_id", .jnum 1), ("reason", .jstr "dup"),
            ("amount", .jstr (decToFixed2 ⟨500, 0⟩))])] ∧
       (JVal.jobj [("payment_id", .jnum 1), ("reason", .jstr "dup"),
         ("amount", .jstr (decToFixed2 ⟨500, 0⟩))]).hasKey "payment_id" = true ∧
       (JVal.jobj [("payment_id", .jnum 1), ("reason", .jstr "dup"),
         ("amount", .jstr (decToFixed2 ⟨500, 0⟩))]).hasKey "reason" = true ∧
       (JVal.jobj [("payment_id", .jnum 1), ("reason", .jstr "dup"),
         ("amount", .jstr (decToFixed2 ⟨500, 0⟩))]).hasKey "amount" = true) ∧
     decToFixed2 ⟨500, 0⟩ = "500.00") :=
  ⟨by decide, by decide, rfl,
   refundPayment_body_spec phFix 0 oracleFix 1 "dup" ⟨500, 0⟩ "TOK"
     (by decide) (by decide) rfl⟩

end PayHereNode
